import Mathlib

/-!
Verification of the stm32f3-rtc driver (spec.md) against its Rust source.

The driver is embedded shallowly:

* the pure BCD codec and the Time/Date value types (src/datetime.rs) become
  plain Lean functions and structures over Nat (u8 / u16 / u32 values are
  natural numbers; a mod 2^w is inserted exactly where the Rust arithmetic
  can wrap);
* the register-mutating operations (src/rtc.rs, src/wakeup.rs) become state
  transformers over an explicit register-file state `RegState`, and in
  addition emit a trace of register-access events (`Event`), so that the
  ordering requirements of the write-protection protocol can be stated.

Busy-wait loops of the driver poll hardware-maintained flags (INITF, WUTWF);
they are recorded as wait events in the trace and the idealized hardware is
assumed responsive, matching the spec's unbounded-blocking design.
-/

set_option linter.unusedVariables false

set_option maxRecDepth 2048

/-! ## BCD codec and value types (src/datetime.rs) -/

/-- Single BCD encoded value (datetime.rs `struct Bcd<T>`; the driver only
instantiates `T = u8`, so both digits are natural numbers below 256). -/
structure Bcd where
  tens : Nat
  units : Nat
  deriving DecidableEq, Repr

/-- `BcdConvert::bcd_decode` (datetime.rs lines 139-145): explicit zero fast
path, then `tens * 10 + units` in u8 arithmetic, hence the mod 256 (the two
u8 wraps of the Rust expression collapse to a single outer mod). -/
def bcd_decode (time : Bcd) : Nat :=
  if time.tens = 0 ∧ time.units = 0 then 0
  else (time.tens * 10 + time.units) % 256

/-- `BcdConvert::bcd_encode` (datetime.rs lines 148-156). The argument is a
u8 value, so the division and remainder cannot overflow. -/
def bcd_encode (time : Nat) : Bcd :=
  if time = 0 then { tens := 0, units := 0 }
  else { tens := time / 10, units := time % 10 }

/-- `Bcd::get` (datetime.rs line 56). -/
def Bcd.get (b : Bcd) : Nat := bcd_decode b

/-- datetime.rs `struct Time` (fields are u8). -/
structure Time where
  hour : Nat
  minute : Nat
  second : Nat
  deriving DecidableEq, Repr

/-- datetime.rs `struct Date` (day, month are u8; year is u32). -/
structure Date where
  day : Nat
  month : Nat
  year : Nat
  deriving DecidableEq, Repr

/-- datetime.rs `struct BcdTime`. -/
structure BcdTime where
  hour : Bcd
  minutes : Bcd
  seconds : Bcd
  deriving DecidableEq, Repr

/-- `From<Time> for BcdTime` (datetime.rs lines 86-95). -/
def BcdTime.ofTime (time : Time) : BcdTime :=
  { hour := bcd_encode time.hour
    minutes := bcd_encode time.minute
    seconds := bcd_encode time.second }

/-- `BcdTime::time` (datetime.rs lines 74-80). -/
def BcdTime.time (t : BcdTime) : Time :=
  { hour := t.hour.get, minute := t.minutes.get, second := t.seconds.get }

/-- datetime.rs `struct BcdDate`. -/
structure BcdDate where
  d : Bcd
  m : Bcd
  y : Bcd
  deriving DecidableEq, Repr

/-- `BcdDate::date` (datetime.rs lines 107-114): century base 2000. -/
def BcdDate.date (b : BcdDate) : Date :=
  { day := b.d.get, month := b.m.get, year := b.y.get + 2000 }

/-- `From<Date> for BcdDate` (datetime.rs lines 118-132): years outside
[2000, 2154] are clamped to 2000, then the two-digit offset is encoded; the
`as u8` cast of the Rust source is the mod 256. -/
def BcdDate.ofDate (date : Date) : BcdDate :=
  let year := if date.year < 2000 ∨ date.year > 2154 then 2000 else date.year
  { d := bcd_encode date.day
    m := bcd_encode date.month
    y := bcd_encode ((year - 2000) % 256) }

/-! ## Register-access events and register-file state

Each mutating driver operation is embedded as a function from a register
state to (new state, trace of register accesses).  The event constructors
correspond one-to-one to the register writes / busy-waits the Rust code
performs on the RTC, EXTI and NVIC peripherals. -/

/-- One register access performed by the driver. -/
inductive Event where
  /-- `rtc.wpr.write(key)` -/
  | wprWrite (key : Nat)
  /-- `rtc.isr.modify(init bit)` -/
  | initWrite (b : Bool)
  /-- busy-wait until ISR.INITF has value b -/
  | waitInitf (b : Bool)
  /-- `rtc.prer.modify(prediv_a, prediv_s)` -/
  | prerWrite (a s : Nat)
  /-- `rtc.tr.modify(ht, hu, mnt, mnu, st, su)` -/
  | trWrite (ht hu mnt mnu st su : Nat)
  /-- `rtc.dr.modify(mt, dt, du, mu, yt, yu)` -/
  | drWrite (mt : Bool) (dt du mu yt yu : Nat)
  /-- `rtc.cr.modify(wute bit)` -/
  | wuteWrite (b : Bool)
  /-- busy-wait until ISR.WUTWF says the reload register is (not) writable -/
  | waitWutwf (writable : Bool)
  /-- `rtc.cr.modify(wutie bit)` -/
  | wutieWrite (b : Bool)
  /-- `rtc.cr.modify(wucksel bits)` -/
  | wuckselWrite (v : Nat)
  /-- `rtc.cr.modify(osel bits; pol bit)` -/
  | oselPolWrite (osel : Nat) (pol : Bool)
  /-- `rtc.wutr.modify(wut bits)` -/
  | wutrWrite (v : Nat)
  /-- `rtc.isr.modify(wutf bit)` -/
  | wutfWrite (b : Bool)
  /-- invocation of the registered interrupt callback -/
  | callbackInvoke
  /-- `exti.imr1.modify(mr20 unmasked)` -/
  | extiImr20Unmask
  /-- `exti.rtsr1.modify(tr20 enabled)` -/
  | extiRtsr20Rising
  /-- `NVIC::unmask(Interrupt::RTC_WKUP)` -/
  | nvicUnmaskWkup
  /-- `exti.pr1.modify(pr20 set)` — write-1-to-clear of the pending bit -/
  | extiPr20ClearWrite
  deriving DecidableEq, Repr

/-- The RTC/EXTI register fields the embedded operations read or write. -/
structure RegState where
  init : Bool
  prer_a : Nat
  prer_s : Nat
  tr_ht : Nat
  tr_hu : Nat
  tr_mnt : Nat
  tr_mnu : Nat
  tr_st : Nat
  tr_su : Nat
  dr_mt : Bool
  dr_dt : Nat
  dr_du : Nat
  dr_mu : Nat
  dr_yt : Nat
  dr_yu : Nat
  wute : Bool
  wutie : Bool
  wucksel : Nat
  osel : Nat
  pol : Bool
  wutr : Nat
  wutf : Bool
  deriving DecidableEq, Repr

/-- A register state with everything cleared, used for concrete runs. -/
def RegState.reset : RegState :=
  { init := false, prer_a := 0, prer_s := 0, tr_ht := 0, tr_hu := 0
    tr_mnt := 0, tr_mnu := 0, tr_st := 0, tr_su := 0, dr_mt := false
    dr_dt := 0, dr_du := 0, dr_mu := 0, dr_yt := 0, dr_yu := 0
    wute := false, wutie := false, wucksel := 0, osel := 0, pol := false
    wutr := 0, wutf := false }

/-! ## The Rtc configurator (src/rtc.rs) -/

/-- rtc.rs `enum ClockSource`. -/
inductive ClockSource where
  | LSI
  | LSE (bypass : Bool)
  | HSE (bypass : Bool)
  deriving DecidableEq, Repr

/-- rtc.rs `enum Init`. -/
inductive Init where
  | Start
  | Stop
  deriving DecidableEq, Repr

/-- rtc.rs `enum Protection`. -/
inductive Protection where
  | Enable
  | Disable
  deriving DecidableEq, Repr

/-- rtc.rs `struct Prediv` (a is u8, s is u16). -/
structure Prediv where
  a : Nat
  s : Nat
  deriving DecidableEq, Repr

/-- rtc.rs `struct Rtc` — the in-memory configuration fields (the RTC
register handle itself is the separate `RegState`). -/
structure Rtc where
  unlock_key : Nat × Nat
  source : ClockSource
  prediv : Prediv
  default : Bool
  deriving DecidableEq, Repr

/-- `Rtc::new` (rtc.rs lines 122-130). -/
def Rtc.new : Rtc :=
  { unlock_key := (0xCA, 0x53)
    source := ClockSource.LSI
    prediv := { a := 127, s := 319 }
    default := true }

/-- `Rtc::set_clock_source` (rtc.rs lines 133-153): stores the source, and
resets the prescaler pair to the source-specific default only when no
explicit override happened (the early return on the default flag). -/
def Rtc.set_clock_source (rtc : Rtc) (clock_source : ClockSource) : Rtc :=
  let rtc := { rtc with source := clock_source }
  if !rtc.default then rtc
  else
    match rtc.source with
    | ClockSource.LSI => { rtc with prediv := { a := 127, s := 319 } }
    | ClockSource.LSE _ => { rtc with prediv := { a := 127, s := 255 } }
    | ClockSource.HSE _ => { rtc with prediv := { a := 200, s := 60000 } }

/-- `Rtc::set_prescalers` (rtc.rs lines 158-162). -/
def Rtc.set_prescalers (rtc : Rtc) (a : Nat) (s : Nat) : Rtc :=
  { rtc with default := false, prediv := { a := a, s := s } }

/-- `Rtc::write_protection` (rtc.rs lines 226-234): unlock writes the two
key bytes of `unlock_key`; lock writes the sentinel 0xC0. -/
def Rtc.write_protection (c : Rtc) : Protection → List Event
  | Protection.Disable =>
      [Event.wprWrite c.unlock_key.1, Event.wprWrite c.unlock_key.2]
  | Protection.Enable => [Event.wprWrite 0xC0]

/-- `Rtc::initf` (rtc.rs lines 208-223): enter or leave init mode, with the
current-state check before requesting, and the busy-wait on INITF. -/
def Rtc.initf (s : RegState) : Init → RegState × List Event
  | Init.Start =>
      if s.init = false then
        ({ s with init := true }, [Event.initWrite true, Event.waitInitf true])
      else (s, [])
  | Init.Stop =>
      if s.init = true then
        ({ s with init := false }, [Event.initWrite false, Event.waitInitf false])
      else (s, [])

/-- `Rtc::modify` (rtc.rs lines 194-203): unlock, enter init, run the body,
leave init, relock. -/
def Rtc.modify (c : Rtc) (s : RegState) (f : RegState → RegState × List Event) :
    RegState × List Event :=
  let a := Rtc.initf s Init.Start
  let b := f a.1
  let d := Rtc.initf b.1 Init.Stop
  (d.1,
    Rtc.write_protection c Protection.Disable ++ a.2 ++ b.2 ++ d.2
      ++ Rtc.write_protection c Protection.Enable)

/-- `Rtc::set_prediv` (rtc.rs lines 287-297): the prescaler write, wrapped
in `Rtc::modify`. -/
def Rtc.set_prediv (c : Rtc) (s : RegState) : RegState × List Event :=
  Rtc.modify c s (fun s =>
    ({ s with prer_a := c.prediv.a, prer_s := c.prediv.s },
     [Event.prerWrite c.prediv.a c.prediv.s]))

/-- `Rtc::set_time` (rtc.rs lines 324-336): encode to BCD, then write all
six time fields inside `Rtc::modify`. -/
def Rtc.set_time (c : Rtc) (s : RegState) (time : Time) : RegState × List Event :=
  let bcd_time := BcdTime.ofTime time
  Rtc.modify c s (fun s =>
    ({ s with
        tr_ht := bcd_time.hour.tens, tr_hu := bcd_time.hour.units,
        tr_mnt := bcd_time.minutes.tens, tr_mnu := bcd_time.minutes.units,
        tr_st := bcd_time.seconds.tens, tr_su := bcd_time.seconds.units },
     [Event.trWrite bcd_time.hour.tens bcd_time.hour.units bcd_time.minutes.tens
        bcd_time.minutes.units bcd_time.seconds.tens bcd_time.seconds.units]))

/-- `Rtc::set_date` (rtc.rs lines 364-379): encode to BCD, derive the
month-tens flag bit from `bcd_date.m.tens > 0`, write inside `Rtc::modify`. -/
def Rtc.set_date (c : Rtc) (s : RegState) (date : Date) : RegState × List Event :=
  let bcd_date := BcdDate.ofDate date
  Rtc.modify c s (fun s =>
    ({ s with
        dr_mt := decide (bcd_date.m.tens > 0),
        dr_dt := bcd_date.d.tens, dr_du := bcd_date.d.units,
        dr_mu := bcd_date.m.units, dr_yt := bcd_date.y.tens, dr_yu := bcd_date.y.units },
     [Event.drWrite (decide (bcd_date.m.tens > 0)) bcd_date.d.tens bcd_date.d.units
        bcd_date.m.units bcd_date.y.tens bcd_date.y.units]))

/-! ## The wakeup timer (src/wakeup.rs, src/rtc_interrupt.rs) -/

/-- wakeup.rs `enum WakeupRtcDivision`. -/
inductive WakeupRtcDivision where
  | RtcDiv16
  | RtcDiv8
  | RtcDiv4
  | RtcDiv2
  | RtcNoDiv
  | RtcOffset
  deriving DecidableEq, Repr

/-- `WakeupRtcDivision::get_bits` (wakeup.rs lines 24-29): the discriminant
values of the Rust enum. -/
def WakeupRtcDivision.get_bits : WakeupRtcDivision → Nat
  | WakeupRtcDivision.RtcDiv16 => 0
  | WakeupRtcDivision.RtcDiv8 => 1
  | WakeupRtcDivision.RtcDiv4 => 2
  | WakeupRtcDivision.RtcDiv2 => 3
  | WakeupRtcDivision.RtcNoDiv => 4
  | WakeupRtcDivision.RtcOffset => 6

/-- rtc_interrupt.rs `enum RtcInterruptOutputPolarity`. -/
inductive RtcInterruptOutputPolarity where
  | High
  | Low
  deriving DecidableEq, Repr

/-- `Into<bool> for RtcInterruptOutputPolarity` (rtc_interrupt.rs lines 7-11). -/
def RtcInterruptOutputPolarity.toBool : RtcInterruptOutputPolarity → Bool
  | RtcInterruptOutputPolarity.High => false
  | RtcInterruptOutputPolarity.Low => true

/-- rtc_interrupt.rs `enum RtcInterruptOutputSelection`. -/
inductive RtcInterruptOutputSelection where
  | Disabled
  | AlarmA
  | AlarmB
  | WakeUp
  deriving DecidableEq, Repr

/-- `Into<u8> for RtcInterruptOutputSelection` (rtc_interrupt.rs lines 21-25). -/
def RtcInterruptOutputSelection.toBits : RtcInterruptOutputSelection → Nat
  | RtcInterruptOutputSelection.Disabled => 0
  | RtcInterruptOutputSelection.AlarmA => 1
  | RtcInterruptOutputSelection.AlarmB => 2
  | RtcInterruptOutputSelection.WakeUp => 3

/-- rtc_interrupt.rs `struct RtcInterrupt`. -/
structure RtcInterrupt where
  output_selection : RtcInterruptOutputSelection
  polarity : RtcInterruptOutputPolarity
  deriving DecidableEq, Repr

/-- `RtcInterrupt::new` (rtc_interrupt.rs lines 34-39). -/
def RtcInterrupt.new : RtcInterrupt :=
  { output_selection := RtcInterruptOutputSelection.Disabled
    polarity := RtcInterruptOutputPolarity.High }

/-- wakeup.rs `struct WakeupManager` — the builder fields (the borrowed Rtc
handle is passed separately to the operations). -/
structure WakeupManager where
  sel : Nat
  time : Nat
  interrupt : RtcInterrupt
  en_interrupt : Bool
  deriving DecidableEq, Repr

/-- `WakeupManager::new` (wakeup.rs lines 78-86). -/
def WakeupManager.new : WakeupManager :=
  { sel := WakeupRtcDivision.RtcNoDiv.get_bits
    time := 360
    interrupt := RtcInterrupt.new
    en_interrupt := false }

/-- `WakeupManager::set_counter` (wakeup.rs lines 154-157); the argument is
a u16. -/
def WakeupManager.set_counter (w : WakeupManager) (time : Nat) : WakeupManager :=
  { w with time := time }

/-- `WakeupManager::set_clock_division` (wakeup.rs lines 163-166). -/
def WakeupManager.set_clock_division (w : WakeupManager)
    (division : WakeupRtcDivision) : WakeupManager :=
  { w with sel := division.get_bits }

/-- `WakeupManager::configure_interrupt` (wakeup.rs lines 109-112). -/
def WakeupManager.configure_interrupt (w : WakeupManager) (i : RtcInterrupt) :
    WakeupManager :=
  { w with interrupt := i }

/-- `WakeupManager::set_interrupt` (wakeup.rs lines 125-131): stores the
flag, and unconditionally unmasks EXTI line 20, selects the rising edge,
and unmasks the NVIC RTC_WKUP channel. -/
def WakeupManager.set_interrupt (w : WakeupManager) (enable : Bool) :
    WakeupManager × List Event :=
  ({ w with en_interrupt := enable },
   [Event.extiImr20Unmask, Event.extiRtsr20Rising, Event.nvicUnmaskWkup])

/-- `WakeupManager::set_wutsel` (wakeup.rs lines 188-191): writes the fixed
`clock_spare` WUCKSEL variant of the peripheral access crate, whose encoding
is 0b100 (ck_spre), inside `Rtc::modify`.  Note it does not read `sel`. -/
def WakeupManager.set_wutsel (c : Rtc) (s : RegState) : RegState × List Event :=
  Rtc.modify c s (fun s => ({ s with wucksel := 4 }, [Event.wuckselWrite 4]))

/-- `WakeupManager::set_time` (wakeup.rs lines 193-198): the WUTR reload
write (the `as u16` cast is the identity, the field is already u16). -/
def WakeupManager.set_time (w : WakeupManager) (s : RegState) :
    RegState × List Event :=
  ({ s with wutr := w.time }, [Event.wutrWrite w.time])

/-- `WakeupManager::enable_interrupts` (wakeup.rs lines 200-207). -/
def WakeupManager.enable_interrupts (w : WakeupManager) (s : RegState) :
    RegState × List Event :=
  ({ s with
      wutie := true,
      osel := w.interrupt.output_selection.toBits,
      pol := w.interrupt.polarity.toBool },
   [Event.wutieWrite true,
    Event.oselPolWrite w.interrupt.output_selection.toBits w.interrupt.polarity.toBool])

/-- `WakeupManager::enable` (wakeup.rs lines 169-186), in source order:
disable WUTE and wait for WUTWF, `set_wutsel`, unlock, interrupt-enable bit
(or explicit disable), reload write, WUTE enable, WUTF clear, relock, wait
for WUTWF to drop. -/
def WakeupManager.enable (c : Rtc) (w : WakeupManager) (s : RegState) :
    RegState × List Event :=
  let s1 : RegState := { s with wute := false }
  let m := WakeupManager.set_wutsel c s1
  let i := if w.en_interrupt then WakeupManager.enable_interrupts w m.1
           else ({ m.1 with wutie := false }, [Event.wutieWrite false])
  let t := WakeupManager.set_time w i.1
  ({ t.1 with wute := true, wutf := false },
   [Event.wuteWrite false, Event.waitWutwf true]
     ++ m.2 ++ Rtc.write_protection c Protection.Disable ++ i.2 ++ t.2
     ++ [Event.wuteWrite true, Event.wutfWrite false]
     ++ Rtc.write_protection c Protection.Enable ++ [Event.waitWutwf false])

/-- The `RTC_WKUP` interrupt service routine (wakeup.rs lines 210-218): the
callback slot is invoked when set, then WUTF is cleared, then the EXTI
line-20 pending bit is cleared. -/
def RTC_WKUP (inst : Option Unit) : List Event :=
  (match inst with
   | none => []
   | some _ => [Event.callbackInvoke])
  ++ [Event.wutfWrite false, Event.extiPr20ClearWrite]

/-! ## The write-protection protocol, as a predicate on traces

Per the reference manual of the device (RM0316), every RTC register written
by this driver is write-protected except ISR bits 13:8 — in particular WUTF.
The WPR key sequence 0xCA then 0x53 unlocks; any other key relocks. -/

/-- Does this event write a write-protected RTC register field? -/
def isProtectedWrite : Event → Bool
  | Event.initWrite _ => true
  | Event.prerWrite _ _ => true
  | Event.trWrite _ _ _ _ _ _ => true
  | Event.drWrite _ _ _ _ _ _ => true
  | Event.wuteWrite _ => true
  | Event.wutieWrite _ => true
  | Event.wuckselWrite _ => true
  | Event.oselPolWrite _ _ => true
  | Event.wutrWrite _ => true
  | _ => false

/-- Protection-unlock state machine: 0 = locked, 1 = first key byte 0xCA
seen, 2 = unlocked (0xCA then 0x53 seen); any other key byte relocks. -/
def wpUnlockStep (st : Nat) (k : Nat) : Nat :=
  if k = 0xCA then 1
  else if st = 1 ∧ k = 0x53 then 2
  else 0

/-- Scans a trace, returning true when every protected-field write happens
while the protection is unlocked (the key bytes 0xCA, 0x53 were written, in
that order, beforehand and not revoked). -/
def protocolOk : Nat → List Event → Bool
  | _, [] => true
  | st, Event.wprWrite k :: rest => protocolOk (wpUnlockStep st k) rest
  | st, e :: rest =>
      if isProtectedWrite e = true ∧ st ≠ 2 then false else protocolOk st rest

/-- The value of the ISR.INIT request bit after a trace, given its value
before. -/
def finalInit : Bool → List Event → Bool
  | b, [] => b
  | _, Event.initWrite v :: rest => finalInit v rest
  | b, _ :: rest => finalInit b rest

/-- The last key byte written to the protection register in a trace. -/
def lastWpr : List Event → Option Nat
  | [] => none
  | Event.wprWrite k :: rest =>
      match lastWpr rest with
      | none => some k
      | some k2 => some k2
  | _ :: rest => lastWpr rest

/-! ## Helper lemmas -/

/-- The BCD codec round-trips every u8 value (tens may exceed one decimal
digit above 99, but decode still reconstructs the value, since no u8 wrap
occurs below 256). -/
theorem bcd_roundtrip_u8 (x : Nat) (h : x < 256) :
    bcd_decode (bcd_encode x) = x := by
  by_cases h0 : x = 0
  · subst h0; rfl
  · unfold bcd_encode bcd_decode
    rw [if_neg h0]
    dsimp only
    rw [if_neg]
    · omega
    · omega

/-- The month-tens flag written by `Rtc.set_date` is the `m.tens > 0` test
on the encoded date, independently of the initial register state. -/
theorem set_date_dr_mt (c : Rtc) (s : RegState) (date : Date) :
    ((Rtc.set_date c s date).1).dr_mt
      = decide ((BcdDate.ofDate date).m.tens > 0) := by
  cases hs : s.init <;>
    simp [Rtc.set_date, Rtc.modify, Rtc.initf, hs]

/-! ## The claims -/

/-- Claim C1: the spec requires every mutating operation that goes through
the protection wrapper (the prescaler write via set_prediv, set_time,
set_date, and the wakeup configuration writes) to write the unlock bytes
0xCA then 0x53, in that order, before any protected-field write, and not to
leave init mode asserted on return.  The three modify-wrapped operations
satisfy this (and end with the lock sentinel 0xC0), but WakeupManager::enable
violates it: its very first action writes the write-protected CR.WUTE field,
before any unlock byte of that call. -/
theorem c1_protection_protocol :
    protocolOk 0 (Rtc.set_prediv Rtc.new RegState.reset).2 = true ∧
    finalInit false (Rtc.set_prediv Rtc.new RegState.reset).2 = false ∧
    lastWpr (Rtc.set_prediv Rtc.new RegState.reset).2 = some 0xC0 ∧
    protocolOk 0 (Rtc.set_time Rtc.new RegState.reset
      { hour := 12, minute := 30, second := 10 }).2 = true ∧
    finalInit false (Rtc.set_time Rtc.new RegState.reset
      { hour := 12, minute := 30, second := 10 }).2 = false ∧
    lastWpr (Rtc.set_time Rtc.new RegState.reset
      { hour := 12, minute := 30, second := 10 }).2 = some 0xC0 ∧
    protocolOk 0 (Rtc.set_date Rtc.new RegState.reset
      { day := 1, month := 1, year := 2024 }).2 = true ∧
    finalInit false (Rtc.set_date Rtc.new RegState.reset
      { day := 1, month := 1, year := 2024 }).2 = false ∧
    lastWpr (Rtc.set_date Rtc.new RegState.reset
      { day := 1, month := 1, year := 2024 }).2 = some 0xC0 ∧
    protocolOk 0 (WakeupManager.enable Rtc.new WakeupManager.new RegState.reset).2
      = false ∧
    (WakeupManager.enable Rtc.new WakeupManager.new RegState.reset).2.head?
      = some (Event.wuteWrite false) ∧
    isProtectedWrite (Event.wuteWrite false) = true ∧
    finalInit false (WakeupManager.enable Rtc.new WakeupManager.new RegState.reset).2
      = false :=
  ⟨by decide, by decide, by decide, by decide, by decide, by decide, by decide,
   by decide, by decide, by decide, by decide, by decide, by decide⟩

/-- Claim C2: for every x in 0-99, bcd_decode (bcd_encode x) = x, and the
zero fast paths give encode 0 = (0,0) and decode (0,0) = 0. -/
theorem c2_bcd_roundtrip :
    (∀ x : Fin 100, bcd_decode (bcd_encode x.val) = x.val) ∧
    bcd_encode 0 = { tens := 0, units := 0 } ∧
    bcd_decode { tens := 0, units := 0 } = 0 := by
  refine ⟨fun x => bcd_roundtrip_u8 x.val ?_, rfl, rfl⟩
  have := x.isLt
  omega

/-- Claim C3: for day 1-31, month 1-12 and year in [2000, 2154] the
Date-to-BcdDate conversion round-trips exactly; for year < 2000 or
year > 2154 the encoding stores year offset (0,0) and decodes to year 2000
regardless of the original year. -/
theorem c3_date_roundtrip_and_clamp (day month year : Nat)
    (hd1 : 1 ≤ day) (hd2 : day ≤ 31) (hm1 : 1 ≤ month) (hm2 : month ≤ 12) :
    ((2000 ≤ year ∧ year ≤ 2154) →
      (BcdDate.ofDate { day := day, month := month, year := year }).date
        = { day := day, month := month, year := year }) ∧
    ((year < 2000 ∨ year > 2154) →
      (BcdDate.ofDate { day := day, month := month, year := year }).y
          = { tens := 0, units := 0 } ∧
      ((BcdDate.ofDate { day := day, month := month, year := year }).date).year
          = 2000) := by
  constructor
  · rintro ⟨h1, h2⟩
    have hcond : ¬ (year < 2000 ∨ year > 2154) := by omega
    have hd : bcd_decode (bcd_encode day) = day := bcd_roundtrip_u8 day (by omega)
    have hm : bcd_decode (bcd_encode month) = month := bcd_roundtrip_u8 month (by omega)
    have hyr : (year - 2000) % 256 = year - 2000 := Nat.mod_eq_of_lt (by omega)
    have hy : bcd_decode (bcd_encode (year - 2000)) = year - 2000 :=
      bcd_roundtrip_u8 (year - 2000) (by omega)
    dsimp only [BcdDate.ofDate, BcdDate.date, Bcd.get]
    rw [if_neg hcond, hyr, hd, hm, hy]
    have hsum : year - 2000 + 2000 = year := by omega
    rw [hsum]
  · intro h
    have hcond : year < 2000 ∨ year > 2154 := by
      rcases h with h | h
      · exact Or.inl h
      · exact Or.inr h
    dsimp only [BcdDate.ofDate, BcdDate.date, Bcd.get]
    rw [if_pos hcond]
    exact ⟨rfl, rfl⟩

/-- Witness for C3: at day 5, month 11, year 2024 the round trip holds, and
at year 1999 the clamp decodes to 2000. -/
theorem c3_witness :
    (1 ≤ 5 ∧ 5 ≤ 31 ∧ 1 ≤ 11 ∧ 11 ≤ 12 ∧ 2000 ≤ 2024 ∧ 2024 ≤ 2154
      ∧ 1999 < 2000) ∧
    (BcdDate.ofDate { day := 5, month := 11, year := 2024 }).date
      = { day := 5, month := 11, year := 2024 } ∧
    ((BcdDate.ofDate { day := 5, month := 11, year := 1999 }).date).year = 2000 :=
  ⟨by decide,
   (c3_date_roundtrip_and_clamp 5 11 2024 (by decide) (by decide) (by decide)
      (by decide)).1 ⟨by decide, by decide⟩,
   ((c3_date_roundtrip_and_clamp 5 11 1999 (by decide) (by decide) (by decide)
      (by decide)).2 (Or.inl (by decide))).2⟩

/-- Claim C4: calling WakeupManager::enable twice in succession with
different 16-bit reload counters leaves WUTE set with the second counter in
the auto-reload register, not the first; each call's trace begins with the
WUTE-disable write followed by the busy-wait for WUTWF. -/
theorem c4_wakeup_reconfigure (t1 t2 : Nat) (s : RegState)
    (h1 : t1 < 65536) (h2 : t2 < 65536) (hne : t1 ≠ t2) :
    ((WakeupManager.enable Rtc.new (WakeupManager.set_counter WakeupManager.new t2)
        (WakeupManager.enable Rtc.new (WakeupManager.set_counter WakeupManager.new t1)
          s).1).1).wute = true ∧
    ((WakeupManager.enable Rtc.new (WakeupManager.set_counter WakeupManager.new t2)
        (WakeupManager.enable Rtc.new (WakeupManager.set_counter WakeupManager.new t1)
          s).1).1).wutr = t2 ∧
    ((WakeupManager.enable Rtc.new (WakeupManager.set_counter WakeupManager.new t2)
        (WakeupManager.enable Rtc.new (WakeupManager.set_counter WakeupManager.new t1)
          s).1).1).wutr ≠ t1 ∧
    ((WakeupManager.enable Rtc.new (WakeupManager.set_counter WakeupManager.new t1)
        s).2).take 2 = [Event.wuteWrite false, Event.waitWutwf true] ∧
    ((WakeupManager.enable Rtc.new (WakeupManager.set_counter WakeupManager.new t2)
        (WakeupManager.enable Rtc.new (WakeupManager.set_counter WakeupManager.new t1)
          s).1).2).take 2 = [Event.wuteWrite false, Event.waitWutwf true] := by
  cases hs : s.init <;>
    simp [WakeupManager.enable, WakeupManager.set_counter, WakeupManager.new,
      WakeupManager.set_wutsel, WakeupManager.set_time, WakeupManager.enable_interrupts,
      Rtc.modify, Rtc.initf, Rtc.write_protection, Rtc.new, hs] <;>
    omega

/-- Witness for C4: with counters 100 then 200 from the reset state, the
timer ends enabled with reload 200. -/
theorem c4_witness :
    ((100 : Nat) < 65536 ∧ (200 : Nat) < 65536 ∧ (100 : Nat) ≠ 200) ∧
    ((WakeupManager.enable Rtc.new (WakeupManager.set_counter WakeupManager.new 200)
        (WakeupManager.enable Rtc.new (WakeupManager.set_counter WakeupManager.new 100)
          RegState.reset).1).1).wute = true ∧
    ((WakeupManager.enable Rtc.new (WakeupManager.set_counter WakeupManager.new 200)
        (WakeupManager.enable Rtc.new (WakeupManager.set_counter WakeupManager.new 100)
          RegState.reset).1).1).wutr = 200 :=
  ⟨by decide,
   (c4_wakeup_reconfigure 100 200 RegState.reset (by decide) (by decide)
      (by decide)).1,
   (c4_wakeup_reconfigure 100 200 RegState.reset (by decide) (by decide)
      (by decide)).2.1⟩

/-- Claim C5: the spec says the division selector stored by
set_clock_division is consumed on enable and written to WUCKSEL.  The code
does not: enable always writes the fixed clock_spare encoding 0b100 and
never reads the stored selector.  Selecting RtcDiv16 (bits 0b000) still
results in WUCKSEL = 4. -/
theorem c5_wucksel_ignores_division :
    (WakeupManager.set_clock_division WakeupManager.new
      WakeupRtcDivision.RtcDiv16).sel = 0 ∧
    Event.wuckselWrite 4 ∈ (WakeupManager.enable Rtc.new
      (WakeupManager.set_clock_division WakeupManager.new WakeupRtcDivision.RtcDiv16)
      RegState.reset).2 ∧
    Event.wuckselWrite 0 ∉ (WakeupManager.enable Rtc.new
      (WakeupManager.set_clock_division WakeupManager.new WakeupRtcDivision.RtcDiv16)
      RegState.reset).2 ∧
    ((WakeupManager.enable Rtc.new
      (WakeupManager.set_clock_division WakeupManager.new WakeupRtcDivision.RtcDiv16)
      RegState.reset).1).wucksel = 4 :=
  ⟨by decide, by decide, by decide, by decide⟩

/-- Counterexample for C6: the claim says override-then-select clobbers the
explicit prescaler pair back to the source defaults; at the explicit pair
(5, 7) followed by selecting LSE, the stored pair is not the LSE default
(127, 255) — the early return on the cleared default flag keeps (5, 7). -/
theorem c6_counterexample :
    ¬ ((Rtc.set_clock_source (Rtc.set_prescalers Rtc.new 5 7)
        (ClockSource.LSE true)).prediv = { a := 127, s := 255 }) := by
  decide

/-- Claim C6 amended: an explicit set_prescalers pair survives a subsequent
set_clock_source (the cleared default flag suppresses the default reset), and
select-then-override also leaves the explicit pair in place. -/
theorem c6_override_survives_select (a s : Nat) (src : ClockSource) :
    (Rtc.set_clock_source (Rtc.set_prescalers Rtc.new a s) src).prediv
      = { a := a, s := s } ∧
    (Rtc.set_prescalers (Rtc.set_clock_source Rtc.new src) a s).prediv
      = { a := a, s := s } := by
  cases src <;>
    simp [Rtc.set_clock_source, Rtc.set_prescalers, Rtc.new]

/-- Witness for C6 amended: at the pair (3, 9) and the HSE source. -/
theorem c6_witness :
    (Rtc.set_clock_source (Rtc.set_prescalers Rtc.new 3 9)
      (ClockSource.HSE false)).prediv = { a := 3, s := 9 } ∧
    (Rtc.set_prescalers (Rtc.set_clock_source Rtc.new (ClockSource.HSE false)) 3 9).prediv
      = { a := 3, s := 9 } :=
  c6_override_survives_select 3 9 (ClockSource.HSE false)

/-- Claim C7: the spec requires (a+1)*(s+1) to equal the documented
oscillator frequency for each source's default prescaler pair.  Only LSE
satisfies it: the LSI default gives 128*320 = 40960, not 40000, and the HSE
default gives 201*60001 = 12060201, not 12000000. -/
theorem c7_prescaler_products :
    ((Rtc.set_clock_source Rtc.new ClockSource.LSI).prediv.a + 1)
        * ((Rtc.set_clock_source Rtc.new ClockSource.LSI).prediv.s + 1) = 40960 ∧
    (40960 : Nat) ≠ 40000 ∧
    ((Rtc.set_clock_source Rtc.new (ClockSource.LSE true)).prediv.a + 1)
        * ((Rtc.set_clock_source Rtc.new (ClockSource.LSE true)).prediv.s + 1)
      = 32768 ∧
    ((Rtc.set_clock_source Rtc.new (ClockSource.HSE true)).prediv.a + 1)
        * ((Rtc.set_clock_source Rtc.new (ClockSource.HSE true)).prediv.s + 1)
      = 12060201 ∧
    (12060201 : Nat) ≠ 12000000 :=
  ⟨by decide, by decide, by decide, by decide, by decide⟩

/-- Claim C8: for every month 1-12 written via set_date, the derived
month-tens flag bit is true exactly for months 10, 11, 12. -/
theorem c8_month_tens_flag (s : RegState) (d y m : Nat)
    (h1 : 1 ≤ m) (h2 : m ≤ 12) :
    ((Rtc.set_date Rtc.new s { day := d, month := m, year := y }).1).dr_mt
      = decide (10 ≤ m) := by
  rw [set_date_dr_mt]
  have hm : (BcdDate.ofDate { day := d, month := m, year := y }).m = bcd_encode m := rfl
  rw [hm]
  interval_cases m <;> decide

/-- Witness for C8: writing month 11 sets the flag. -/
theorem c8_witness :
    ((1 : Nat) ≤ 11 ∧ (11 : Nat) ≤ 12) ∧
    ((Rtc.set_date Rtc.new RegState.reset { day := 7, month := 11, year := 2024 }).1).dr_mt
      = decide ((10 : Nat) ≤ 11) :=
  ⟨by decide, c8_month_tens_flag RegState.reset 7 2024 11 (by decide) (by decide)⟩

/-- Claim C9: the RTC_WKUP service routine invokes the registered callback
first when one is set (and touches nothing of the slot otherwise), then
clears WUTF, then clears the EXTI line-20 pending bit, in that order. -/
theorem c9_isr_order (inst : Option Unit) :
    RTC_WKUP inst =
      (if inst.isSome then [Event.callbackInvoke] else [])
        ++ [Event.wutfWrite false, Event.extiPr20ClearWrite] := by
  cases inst <;> rfl

/-- Witness for C9: with a registered callback the trace is the callback
invocation, the WUTF clear, then the pending-bit clear. -/
theorem c9_witness :
    RTC_WKUP (some ()) =
      (if (some ()).isSome then [Event.callbackInvoke] else [])
        ++ [Event.wutfWrite false, Event.extiPr20ClearWrite] :=
  c9_isr_order (some ())

/-- Claim C10: set_interrupt unmasks EXTI line 20, selects the rising edge
and unmasks the NVIC RTC_WKUP channel whatever its boolean argument is; the
boolean only lands in en_interrupt, which decides whether a later enable
writes WUTIE set or cleared. -/
theorem c10_set_interrupt_side_effects (b : Bool) (w : WakeupManager) (s : RegState) :
    (WakeupManager.set_interrupt w b).2
      = [Event.extiImr20Unmask, Event.extiRtsr20Rising, Event.nvicUnmaskWkup] ∧
    ((WakeupManager.set_interrupt w b).1).en_interrupt = b ∧
    Event.wutieWrite b
      ∈ (WakeupManager.enable Rtc.new (WakeupManager.set_interrupt w b).1 s).2 ∧
    Event.wutieWrite (!b)
      ∉ (WakeupManager.enable Rtc.new (WakeupManager.set_interrupt w b).1 s).2 := by
  cases b <;> cases hs : s.init <;>
    simp [WakeupManager.set_interrupt, WakeupManager.enable,
      WakeupManager.enable_interrupts, WakeupManager.set_wutsel,
      WakeupManager.set_time, Rtc.modify, Rtc.initf, Rtc.write_protection,
      Rtc.new, hs]

/-- Witness for C10: at the true argument on a fresh manager and the reset
register state. -/
theorem c10_witness :
    (WakeupManager.set_interrupt WakeupManager.new true).2
      = [Event.extiImr20Unmask, Event.extiRtsr20Rising, Event.nvicUnmaskWkup] ∧
    ((WakeupManager.set_interrupt WakeupManager.new true).1).en_interrupt = true ∧
    Event.wutieWrite true
      ∈ (WakeupManager.enable Rtc.new
          (WakeupManager.set_interrupt WakeupManager.new true).1 RegState.reset).2 ∧
    Event.wutieWrite (!true)
      ∉ (WakeupManager.enable Rtc.new
          (WakeupManager.set_interrupt WakeupManager.new true).1 RegState.reset).2 :=
  c10_set_interrupt_side_effects true WakeupManager.new RegState.reset
